import Mathlib

/-!
Verification development for the simple-code-eval repository.

The Python sources under simple_code_eval/ are embedded shallowly:
pure functions become Lean functions, machine text becomes lists of
characters, Python exceptions become an explicit error type carried in
Except, and the process environment becomes an explicit map passed in
and returned.  Components of the repository that are not available as
source (generation.py, tasks/base.py, tasks/custom_metrics/code_eval.py)
are modelled from the specification; each such definition carries a doc
comment starting with "Modelled from the spec:".
-/

set_option autoImplicit false

namespace SimpleCodeEval

/-- Program text: Python `str`, embedded as a list of characters. -/
abbrev Text := List Char

/-- Python exceptions raised by the embedded code. -/
inductive PyError where
  | keyError (msg : String)
  | typeError (msg : String)
  | valueError (msg : String)
  | indexError (msg : String)
deriving DecidableEq, Repr

/-- One record of the MBPP dataset split: the fields the embedded code
reads (`text`, `code`, `test_list`). -/
structure DatasetRecord where
  text : Text
  code : Text
  test_list : List Text
deriving DecidableEq, Repr

/-- One chat message handed to the tokenizer's chat-template collaborator. -/
structure Message where
  role : String
  content : Text
deriving DecidableEq, Repr

/-- The command-line arguments object (`args`), restricted to the fields the
embedded functions read.  `num_replicas` stands for
`accelerator.num_processes`, which the source threads alongside `args`. -/
structure Args where
  allow_code_execution : Bool
  prompt : String
  load_data_path : Option String
  limit : Option Nat
  limit_start : Nat
  n_samples : Nat
  num_replicas : Nat
  check_references : Bool

/-- A constructed task object, restricted to the capability surface
`Evaluator.evaluate` uses: the `requires_execution` flag and the
`process_results` grading entry point (whose numeric output type is a
pass@k table). -/
structure Task where
  requires_execution : Bool
  process_results : List (List Text) → List Text → List (String × ℚ)

/-- A registry entry: the constructor parameter names that
`inspect.signature` reports, the subset of them that have no default, and
the object built when construction succeeds. -/
structure TaskClass where
  ctor_params : List String
  required_params : List String
  make : Args → Task

/-- The keyword arguments `get_task` supplies reflectively
(tasks/__init__.py lines 20-24): `prompt` and `load_data_path`, each only
when that name appears in the constructor signature. -/
def supplied_kwargs (ctor_params : List String) : List String :=
  (if ctor_params.contains "prompt" then ["prompt"] else []) ++
    (if ctor_params.contains "load_data_path" then ["load_data_path"] else [])

/-- Calling the registered class with the reflective kwargs
(tasks/__init__.py line 25).  Python raises `TypeError` when a required
positional parameter is not among the supplied keyword arguments. -/
def construct_task (cls : TaskClass) (args : Args) : Except PyError Task :=
  match cls.required_params.find? (fun p => !(supplied_kwargs cls.ctor_params).contains p) with
  | some p => Except.error (PyError.typeError ("missing required argument: " ++ p))
  | none => Except.ok (cls.make args)

/-- MBPP's constructor signature (tasks/mbpp.py line 35): one parameter,
`apply_chat_template`, with no default. -/
def MBPP_ctor_params : List String := ["apply_chat_template"]

/-- Registry entry for `"mbpp"`.  The `make` field is unreachable because
construction always fails (see `get_task_mbpp_always_fails`); it carries a
placeholder grading function. -/
def mbpp_class : TaskClass :=
  { ctor_params := MBPP_ctor_params
    required_params := MBPP_ctor_params
    make := fun _ => { requires_execution := true, process_results := fun _ _ => [] } }

/-- TASK_REGISTRY (tasks/__init__.py lines 9-13), restricted to the entry
whose class is available as source.  The `mbppplus` and `humaneval`
entries come from files that are not under src/; the theorems below only
inspect the `"mbpp"` binding and names absent from the full registry. -/
def TASK_REGISTRY : List (String × TaskClass) := [("mbpp", mbpp_class)]

/-- tasks/__init__.py `get_task`: a registry miss raises
`KeyError("Missing task <name>")`; a hit calls the class with the
reflective kwargs, and any `TypeError` from construction propagates. -/
def get_task (task_name : String) (args : Args) : Except PyError Task :=
  match (TASK_REGISTRY.find? (fun e => e.1 = task_name)).map Prod.snd with
  | none => Except.error (PyError.keyError ("Missing task " ++ task_name))
  | some cls => construct_task cls args

/-- MBPP stop words (tasks/mbpp.py lines 37-46). -/
def MBPP_stop_words : List Text :=
  ["\nclass".toList, "\nassert".toList, "\n\"\"\"".toList, "\nprint".toList,
   "\nif".toList, "\n<|/".toList, "\n```".toList, "\n[DONE]".toList]

/-- First index at which `needle` occurs as a contiguous substring of
`hay`, as Python `str.find` reports it; `none` when there is no
occurrence. -/
def findOcc (hay needle : Text) : Option Nat :=
  match hay with
  | [] => if needle.isPrefixOf [] then some 0 else none
  | c :: t =>
      if needle.isPrefixOf (c :: t) then some 0
      else (findOcc t needle).map (· + 1)

/-- One step of the minimum-stop-index scan: keep the smaller of the
running minimum and the position of `tok` in `decoded`, if any. -/
def stop_fold (decoded : Text) (m : Nat) (tok : Text) : Nat :=
  match findOcc decoded tok with
  | some i => if i < m then i else m
  | none => m

/-- Position of the earliest stop-sequence occurrence in `decoded`
(the length of `decoded` when no stop sequence occurs). -/
def min_stop_index (decoded : Text) (stop_tokens : List Text) : Nat :=
  stop_tokens.foldl (stop_fold decoded) decoded.length

/-- Modelled from the spec: `Task._stop_at_stop_token` lives in
tasks/base.py, which is not under src/.  Per the spec, each raw
completion is cut at the first occurrence of any configured stop
sequence, the earliest match across all sequences winning. -/
def stop_at_stop_token (decoded : Text) (stop_tokens : List Text) : Text :=
  decoded.take (min_stop_index decoded stop_tokens)

/-- MBPP reference extraction (tasks/mbpp.py lines 141-143): the record's
`test_list` joined by newlines. -/
def MBPP_get_reference (doc : DatasetRecord) : Text :=
  List.intercalate "\n".toList doc.test_list

/-- One raw few-shot example (tasks/mbpp.py lines 66-103). -/
structure RawExample where
  text : Text
  code : Text
  task_id : Nat
  test_setup_code : Text
  test_list : List Text
  challenge_test_list : List Text

/-- The three hard-coded MBPP few-shot examples (tasks/mbpp.py lines 66-103). -/
def mbpp_raw_examples : List RawExample :=
  [ { text := "Write a function to find the similar elements from the given two tuple lists.".toList
      code := "def similar_elements(test_tup1, test_tup2):\r\n  res = tuple(set(test_tup1) & set(test_tup2))\r\n  return (res) ".toList
      task_id := 2
      test_setup_code := []
      test_list :=
        ["assert similar_elements((3, 4, 5, 6),(5, 7, 4, 10)) == (4, 5)".toList,
         "assert similar_elements((1, 2, 3, 4),(5, 4, 3, 7)) == (3, 4)".toList,
         "assert similar_elements((11, 12, 14, 13),(17, 15, 14, 13)) == (13, 14)".toList]
      challenge_test_list := [] },
    { text := "Write a python function to identify non-prime numbers.".toList
      code := "import math\r\ndef is_not_prime(n):\r\n    result = False\r\n    for i in range(2,int(math.sqrt(n)) + 1):\r\n        if n % i == 0:\r\n            result = True\r\n    return result".toList
      task_id := 3
      test_setup_code := []
      test_list :=
        ["assert is_not_prime(2) == False".toList,
         "assert is_not_prime(10) == True".toList,
         "assert is_not_prime(35) == True".toList]
      challenge_test_list := [] },
    { text := "Write a function to find the largest integers from a given list of numbers using heap queue algorithm.".toList
      code := "import heapq as hq\r\ndef heap_queue_largest(nums,n):\r\n  largest_nums = hq.nlargest(n, nums)\r\n  return largest_nums".toList
      task_id := 4
      test_setup_code := []
      test_list :=
        ["assert heap_queue_largest( [25, 35, 22, 85, 14, 65, 75, 22, 58],3)==[85, 75, 65] ".toList,
         "assert heap_queue_largest( [25, 35, 22, 85, 14, 65, 75, 22, 58],2)==[85, 75] ".toList,
         "assert heap_queue_largest( [25, 35, 22, 85, 14, 65, 75, 22, 58],5)==[85, 75, 65, 58, 35]".toList]
      challenge_test_list := [] } ]

/-- The user-turn content built in `fewshot_examples` and `get_prompt`
(tasks/mbpp.py lines 109 and 127); literal braces of the f-string are the
escaped characters. -/
def mbpp_user_content (description reference : Text) : Text :=
  "Here is your task: ".toList ++ description ++
    "\n\nYour code should pass these tests:\n\n```Python\n".toList ++ reference ++
    "\n```\n\nLet\x27s think step by step. Put your final answer at the end with\n\n[BEGIN]\n\x7byour_code\x7d\n[DONE]".toList

/-- MBPP few-shot messages (tasks/mbpp.py lines 104-117): a user/assistant
pair per raw example. -/
def mbpp_fewshot_examples : List Message :=
  mbpp_raw_examples.flatMap (fun raw =>
    [ { role := "user"
        content := mbpp_user_content raw.text (List.intercalate "\n".toList raw.test_list) },
      { role := "assistant"
        content := "[BEGIN]\n".toList ++ raw.code ++ "\n[DONE]".toList } ])

/-- An MBPP task object: the two external collaborators it closes over,
the tokenizer chat template (`apply_chat_template`) and the test split of
the dataset (`self.dataset["test"]`, accessed by index). -/
structure MBPPTask where
  apply_chat_template : List Message → Text
  dataset_test : Nat → DatasetRecord

/-- MBPP prompt construction (tasks/mbpp.py lines 119-139): a system
message, the few-shot messages and a user message, rendered by the chat
template collaborator. -/
def MBPP_get_prompt (t : MBPPTask) (doc : DatasetRecord) : Text :=
  t.apply_chat_template
    ({ role := "system", content := "You are an expert Python programmer.".toList } ::
      mbpp_fewshot_examples ++
      [{ role := "user", content := mbpp_user_content doc.text (MBPP_get_reference doc) }])

/-- MBPP postprocessing (tasks/mbpp.py lines 149-158): rebuild the record's
prompt, slice it off the front of the raw generation, and keep the prompt
followed by the remainder truncated at the stop words. -/
def MBPP_postprocess_generation (t : MBPPTask) (generation : Text) (idx : Nat) : Text :=
  let prompt := MBPP_get_prompt t (t.dataset_test idx)
  let generation := generation.drop prompt.length
  prompt ++ stop_at_stop_token generation MBPP_stop_words

/-- The process environment: a map from variable names to values. -/
def EnvMap := String → Option String

/-- `os.environ[k] = v`. -/
def envSet (env : EnvMap) (k v : String) : EnvMap :=
  fun k' => if k' = k then some v else env k'

/-- The Evaluator object (evaluator.py lines 25-29).  Line 28, reading
`args.allow_code_execution`, is commented out in the source; line 29
assigns the literal `True`. -/
structure Evaluator where
  args : Args
  allow_code_execution : Bool

/-- `Evaluator.__init__` (evaluator.py lines 26-29): stores `args` and
hard-codes `allow_code_execution = True`. -/
def Evaluator.init (args : Args) : Evaluator :=
  { args := args, allow_code_execution := true }

/-- The body of `Evaluator.evaluate` after the task lookup (evaluator.py
lines 44-52): the permission gate, the two environment-variable writes,
and the call into the task's grading function.  The `ValueError` carries
the warning banner; its text is abbreviated here. -/
def Evaluator.evaluate_task (self : Evaluator) (task : Task)
    (generations : List (List Text)) (references : List Text)
    (env : EnvMap) : Except PyError (EnvMap × List (String × ℚ)) :=
  if task.requires_execution && !self.allow_code_execution then
    Except.error (PyError.valueError "allow_code_execution warning banner")
  else
    let env := envSet env "TOKENIZERS_PARALLELISM" "false"
    let env :=
      if self.allow_code_execution && task.requires_execution then
        envSet env "HF_ALLOW_CODE_EVAL" "1"
      else env
    Except.ok (env, task.process_results generations references)

/-- `Evaluator.evaluate` (evaluator.py lines 31-52): look the task up in
the registry, then run the gate, the environment writes and the grading. -/
def Evaluator.evaluate (self : Evaluator) (task_name : String)
    (generations : List (List Text)) (references : List Text)
    (env : EnvMap) : Except PyError (EnvMap × List (String × ℚ)) :=
  (get_task task_name self.args).bind
    (fun task => self.evaluate_task task generations references env)

/-- The capability surface of a task that `Generator.generate_text` uses:
the dataset collaborator (indexed access and length, generator.py line 20)
and the reference extractor. -/
structure GenTask where
  dataset : Nat → DatasetRecord
  dataset_len : Nat
  get_reference : DatasetRecord → Text

/-- The task count of `Generator.generate_text` (generator.py lines
23-31), over Python integers: `min(limit, len - limit_start)` when
`args.limit` is truthy, else `len(dataset)` followed by the
`n_tasks -= limit_start` adjustment.  A limit of `None` and a limit of
`0` are both falsy in Python, so both take the second branch. -/
def n_tasks_of (dataset_len : Nat) (args : Args) : Int :=
  match args.limit with
  | some l =>
      if l = 0 then (dataset_len : Int) - (args.limit_start : Int)
      else min (l : Int) ((dataset_len : Int) - (args.limit_start : Int))
  | none => (dataset_len : Int) - (args.limit_start : Int)

/-- The reference list of `Generator.generate_text` (generator.py lines
32-35): one reference per record from `limit_start` on; a non-positive
task count gives the empty list, as Python `range` does. -/
def gen_references (task : GenTask) (args : Args) : List Text :=
  (List.range (n_tasks_of task.dataset_len args).toNat).map
    (fun i => task.get_reference (task.dataset (args.limit_start + i)))

/-- Modelled from the spec: samples each of the `num_replicas` workers
produces per record under the deterministic sample-index-modulo-replica
sharding of generation.py (not under src/): the ceiling of
`n_samples / num_replicas`. -/
def samples_per_replica (args : Args) : Nat :=
  (args.n_samples + args.num_replicas - 1) / args.num_replicas

/-- Modelled from the spec: candidates produced per record by the
sharded generation (generation.py is not under src/); an uneven division
yields more than `n_samples`. -/
def per_record_count (args : Args) : Nat :=
  args.num_replicas * samples_per_replica args

/-- Modelled from the spec: `parallel_generations` (generation.py is not
under src/).  It extends the supplied partial candidate array with
`n_tasks` further records; generation restarts at record
`limit_start + curr_sample_idx` (the source comment at generator.py line
64: curr_sample_idx is added to limit_start to fix indexing), each record
receiving `per_record_count` truncated candidates from the deterministic
generation collaborator `gen_sample` (record index, sample index). -/
def parallel_generations (gen_sample : Nat → Nat → Text) (n_tasks : Nat)
    (args : Args) (curr_sample_idx : Nat)
    (intermediate_generations : List (List Text)) : List (List Text) :=
  intermediate_generations ++
    (List.range n_tasks).map (fun i =>
      (List.range (per_record_count args)).map
        (fun j => gen_sample (args.limit_start + curr_sample_idx + i) j))

/-- What an uninterrupted `parallel_generations` call produces for a run:
the candidate array before the `n_samples` trim. -/
def raw_generations (task : GenTask) (gen_sample : Nat → Nat → Text)
    (args : Args) : List (List Text) :=
  parallel_generations gen_sample (n_tasks_of task.dataset_len args).toNat args 0 []

/-- The warning emitted when extra predictions are removed (generator.py
lines 74-76); its interpolated text is abbreviated here. -/
def over_warning : String :=
  "Number of tasks wasn\x27t proportional to number of devices, we removed extra predictions to only keep nsamples"

/-- The value `Generator.generate_text` returns, together with the
warnings it emitted along the way. -/
structure GenResult where
  generations : List (List Text)
  references : List Text
  warnings : List String
deriving DecidableEq

/-- The trim at the end of `Generator.generate_text` (generator.py lines
70-77): line 70 reads `len(generations[0])`, which raises `IndexError`
when the candidate array is empty (a zero-record run); otherwise, when
the first record's list exceeds `n_samples`, every record's list is cut
to `n_samples` and a warning is emitted. -/
def trim_result (task : GenTask) (args : Args)
    (generations : List (List Text)) : Except PyError GenResult :=
  match generations with
  | [] => Except.error (PyError.indexError "list index out of range")
  | g0 :: _ =>
      if args.n_samples < g0.length then
        Except.ok { generations := generations.map (fun g => g.take args.n_samples)
                    references := gen_references task args
                    warnings := [over_warning] }
      else
        Except.ok { generations := generations
                    references := gen_references task args
                    warnings := [] }

/-- The tail of `Generator.generate_text` after the current partial array
is in hand (generator.py lines 52-77): reduce the task count by the
number of current records, continue generation at the next record, and
apply the trim. -/
def generate_from (task : GenTask) (gen_sample : Nat → Nat → Text)
    (args : Args) (curr_generations : List (List Text)) :
    Except PyError GenResult :=
  trim_result task args
    (parallel_generations gen_sample
      (n_tasks_of task.dataset_len args - (curr_generations.length : Int)).toNat
      args curr_generations.length curr_generations)

/-- `Generator.generate_text` (generator.py lines 18-77), taking the
constructed task as a parameter (the source first obtains it through
`tasks.get_task`, embedded separately as `get_task`).  The
`check_references` branch (lines 37-47) is the `get_solution`-free case,
the one its only src task (MBPP `get_reference`) selects.  On resume
(lines 49-51) the falsy Python checkpoint values — `None` and the empty
list — leave the current array empty, and falsy (empty) record entries
are filtered out; no other validation is performed. -/
def generate_text (task : GenTask) (gen_sample : Nat → Nat → Text)
    (args : Args) (intermediate_generations : Option (List (List Text))) :
    Except PyError GenResult :=
  if args.check_references then
    Except.ok { generations := (gen_references task args).map (fun r => [r])
                references := gen_references task args
                warnings := [] }
  else
    generate_from task gen_sample args
      (match intermediate_generations with
       | none => []
       | some gens => if gens.isEmpty then [] else gens.filter (fun g => !g.isEmpty))

/-- Modelled from the spec: the per-record pass@k estimator
(tasks/custom_metrics/code_eval.py is not under src/).  With `n` generated
candidates of which `c` are correct, pass@k is
`1 - C(n-c, k) / C(n, k)` when `n - c >= k` and `1.0` otherwise, computed
here over the rationals. -/
def pass_at_k (n c k : Nat) : ℚ :=
  if n - c < k then 1
  else 1 - ((n - c).choose k : ℚ) / (n.choose k : ℚ)

/-- The claimed task count, written from the spec sentence of C7 for
comparison with the source computation `n_tasks_of`: the minimum applies
whenever a limit is supplied. -/
def spec_n_tasks (limit : Option Nat) (dataset_len limit_start : Nat) : Nat :=
  match limit with
  | some l => min l (dataset_len - limit_start)
  | none => dataset_len - limit_start

/-- A tiny dataset record for the concrete runs below. -/
def demoDoc : DatasetRecord :=
  { text := "demo".toList
    code := "def f(): pass".toList
    test_list := ["assert f() == None".toList] }

/-- A three-record dataset collaborator for the concrete runs below. -/
def demoTask : GenTask :=
  { dataset := fun _ => demoDoc
    dataset_len := 3
    get_reference := MBPP_get_reference }

/-- A deterministic generation collaborator for the concrete runs below. -/
def demoGen : Nat → Nat → Text :=
  fun r s => [Char.ofNat (65 + r), Char.ofNat (48 + s)]

/-- Arguments of a concrete run: three samples over two replicas, so the
sharding over-produces (four candidates per record) and the trim fires. -/
def demoArgs : Args :=
  { allow_code_execution := false
    prompt := "prompt"
    load_data_path := none
    limit := none
    limit_start := 0
    n_samples := 3
    num_replicas := 2
    check_references := false }

/-- Arguments of the invalid-checkpoint run: one sample, one replica. -/
def c3Args : Args :=
  { allow_code_execution := false
    prompt := "prompt"
    load_data_path := none
    limit := none
    limit_start := 0
    n_samples := 1
    num_replicas := 1
    check_references := false }

/-- A one-record dataset for the invalid-checkpoint run. -/
def c3Task : GenTask :=
  { dataset := fun _ => demoDoc
    dataset_len := 1
    get_reference := MBPP_get_reference }

/-- An invalid checkpoint for `c3Task`: three record entries supplied for
a one-record run. -/
def c3Ckpt : List (List Text) :=
  [["a".toList], ["b".toList], ["c".toList]]

/-- Arguments with an explicit limit of zero: a set limit that Python
truthiness treats as unset. -/
def c7Args : Args :=
  { allow_code_execution := false
    prompt := "prompt"
    load_data_path := none
    limit := some 0
    limit_start := 0
    n_samples := 1
    num_replicas := 1
    check_references := false }

theorem findOcc_isPrefixOf (needle : Text) :
    ∀ (hay : Text) (i : Nat), findOcc hay needle = some i →
      needle.isPrefixOf (hay.drop i) = true := by
  intro hay
  induction hay with
  | nil =>
      intro i h
      simp only [findOcc] at h
      split at h
      · next hpre =>
          cases h
          simpa using hpre
      · simp at h
  | cons c t ih =>
      intro i h
      simp only [findOcc] at h
      split at h
      · next hpre =>
          cases h
          simpa using hpre
      · next hpre =>
          cases hfo : findOcc t needle with
          | none => rw [hfo] at h; simp at h
          | some j =>
              rw [hfo] at h
              have h' : j + 1 = i := by simpa using h
              subst h'
              simpa [List.drop] using ih j hfo

theorem findOcc_of_occurs (needle : Text) :
    ∀ (hay : Text) (j : Nat), needle.isPrefixOf (hay.drop j) = true →
      ∃ i, findOcc hay needle = some i ∧ i ≤ j := by
  intro hay
  induction hay with
  | nil =>
      intro j h
      refine ⟨0, ?_, Nat.zero_le j⟩
      simp only [List.drop_nil] at h
      simp only [findOcc]
      rw [if_pos h]
  | cons c t ih =>
      intro j h
      by_cases hpre : needle.isPrefixOf (c :: t) = true
      · refine ⟨0, ?_, Nat.zero_le j⟩
        simp only [findOcc]
        rw [if_pos hpre]
      · cases j with
        | zero =>
            rw [List.drop_zero] at h
            exact absurd h hpre
        | succ j' =>
            obtain ⟨i, hi, hij⟩ := ih j' (by simpa [List.drop] using h)
            refine ⟨i + 1, ?_, Nat.succ_le_succ hij⟩
            simp only [findOcc]
            rw [if_neg hpre, hi]
            rfl

theorem stop_fold_le (decoded : Text) (m : Nat) (tok : Text) :
    stop_fold decoded m tok ≤ m := by
  unfold stop_fold
  cases findOcc decoded tok with
  | none => exact Nat.le_refl m
  | some i =>
      simp only
      split
      · omega
      · exact Nat.le_refl m

theorem foldl_stop_fold_le (decoded : Text) :
    ∀ (toks : List Text) (m : Nat), toks.foldl (stop_fold decoded) m ≤ m := by
  intro toks
  induction toks with
  | nil => intro m; exact Nat.le_refl m
  | cons t ts ih =>
      intro m
      calc ts.foldl (stop_fold decoded) (stop_fold decoded m t)
            ≤ stop_fold decoded m t := ih _
        _ ≤ m := stop_fold_le decoded m t

theorem foldl_stop_fold_le_occ (decoded : Text) :
    ∀ (toks : List Text) (m : Nat) (tok : Text) (i : Nat),
      tok ∈ toks → findOcc decoded tok = some i →
      toks.foldl (stop_fold decoded) m ≤ i := by
  intro toks
  induction toks with
  | nil => intro m tok i hmem; cases hmem
  | cons t ts ih =>
      intro m tok i hmem hfo
      rcases List.mem_cons.mp hmem with heq | hmem'
      · subst heq
        calc ts.foldl (stop_fold decoded) (stop_fold decoded m tok)
              ≤ stop_fold decoded m tok := foldl_stop_fold_le decoded ts _
          _ ≤ i := by
              unfold stop_fold
              rw [hfo]
              simp only
              split <;> omega
      · exact ih _ tok i hmem' hfo

theorem foldl_stop_fold_cases (decoded : Text) :
    ∀ (toks : List Text) (m : Nat),
      toks.foldl (stop_fold decoded) m = m ∨
        ∃ tok, tok ∈ toks ∧
          findOcc decoded tok = some (toks.foldl (stop_fold decoded) m) := by
  intro toks
  induction toks with
  | nil => intro m; exact Or.inl rfl
  | cons t ts ih =>
      intro m
      simp only [List.foldl_cons]
      rcases ih (stop_fold decoded m t) with heq | ⟨tok, hmem, hfo⟩
      · rw [heq]
        cases hfo2 : findOcc decoded t with
        | none =>
            left
            unfold stop_fold
            rw [hfo2]
        | some i =>
            by_cases hlt : i < m
            · right
              refine ⟨t, by simp, ?_⟩
              rw [hfo2]
              unfold stop_fold
              rw [hfo2]
              simp [hlt]
            · left
              unfold stop_fold
              rw [hfo2]
              simp [hlt]
      · exact Or.inr ⟨tok, List.mem_cons_of_mem t hmem, hfo⟩

/-- C6: for every raw completion that begins with its record's prompt,
`MBPP.postprocess_generation` returns the prompt followed by the
completion text cut at the earliest occurrence of any configured stop
sequence across all stop sequences (the full completion when none
occurs). -/
theorem mbpp_postprocess_cut (t : MBPPTask) (idx : Nat) (rest : Text) :
    ∃ cut,
      MBPP_postprocess_generation t (MBPP_get_prompt t (t.dataset_test idx) ++ rest) idx =
        MBPP_get_prompt t (t.dataset_test idx) ++ rest.take cut ∧
      cut ≤ rest.length ∧
      (∀ tok ∈ MBPP_stop_words, ∀ j, tok.isPrefixOf (rest.drop j) = true → cut ≤ j) ∧
      (cut = rest.length ∨ ∃ tok ∈ MBPP_stop_words, tok.isPrefixOf (rest.drop cut) = true) := by
  refine ⟨min_stop_index rest MBPP_stop_words, ?_, ?_, ?_, ?_⟩
  · simp only [MBPP_postprocess_generation, stop_at_stop_token]
    rw [List.drop_left]
  · exact foldl_stop_fold_le rest MBPP_stop_words rest.length
  · intro tok htok j hj
    obtain ⟨i, hi, hij⟩ := findOcc_of_occurs tok rest j hj
    exact Nat.le_trans
      (foldl_stop_fold_le_occ rest MBPP_stop_words rest.length tok i htok hi) hij
  · rcases foldl_stop_fold_cases rest MBPP_stop_words rest.length with h | ⟨tok, htok, hocc⟩
    · exact Or.inl h
    · exact Or.inr ⟨tok, htok, findOcc_isPrefixOf tok rest _ hocc⟩

/-- C1: the permission gate is dead code.  An Evaluator built from
arguments whose execution-permission flag is unset still grades a task
with `requires_execution = true` without raising: `Evaluator.__init__`
hard-codes `allow_code_execution = True` (evaluator.py line 29, the read
of `args.allow_code_execution` on line 28 being commented out), so no
`ExecutionNotAllowed` failure occurs and `HF_ALLOW_CODE_EVAL` is set,
enabling executions. -/
theorem evaluate_task_ignores_unset_flag (args : Args) (t : Task)
    (gens : List (List Text)) (refs : List Text) (env : EnvMap) :
    Evaluator.evaluate_task
        (Evaluator.init { args with allow_code_execution := false })
        { t with requires_execution := true } gens refs env =
      Except.ok
        (envSet (envSet env "TOKENIZERS_PARALLELISM" "false") "HF_ALLOW_CODE_EVAL" "1",
          t.process_results gens refs) := by
  unfold Evaluator.evaluate_task Evaluator.init
  simp

/-- C10: every `Evaluator.evaluate` call that reaches grading (the task
lookup precedes any mutation) first sets `TOKENIZERS_PARALLELISM` to
"false", sets `HF_ALLOW_CODE_EVAL` to "1" exactly when the looked-up
task's `requires_execution` flag is true, leaves every other environment
variable unchanged, and the settings persist in the environment returned
with the grading result. -/
theorem evaluate_task_env_effects (args : Args) (t : Task)
    (gens : List (List Text)) (refs : List Text) (env : EnvMap) :
    ∃ envOut,
      Evaluator.evaluate_task (Evaluator.init args) t gens refs env =
        Except.ok (envOut, t.process_results gens refs) ∧
      envOut "TOKENIZERS_PARALLELISM" = some "false" ∧
      envOut "HF_ALLOW_CODE_EVAL" =
        (if t.requires_execution then some "1" else env "HF_ALLOW_CODE_EVAL") ∧
      (∀ k, k ≠ "TOKENIZERS_PARALLELISM" → k ≠ "HF_ALLOW_CODE_EVAL" →
        envOut k = env k) := by
  unfold Evaluator.evaluate_task Evaluator.init
  cases hreq : t.requires_execution with
  | false =>
      refine ⟨envSet env "TOKENIZERS_PARALLELISM" "false", ?_, ?_, ?_, ?_⟩
      · simp [hreq]
      · simp [envSet]
      · simp [hreq, envSet]
      · intro k h1 _
        simp [envSet, h1]
  | true =>
      refine ⟨envSet (envSet env "TOKENIZERS_PARALLELISM" "false")
          "HF_ALLOW_CODE_EVAL" "1", ?_, ?_, ?_, ?_⟩
      · simp [hreq]
      · simp [envSet]
      · simp [hreq, envSet]
      · intro k h1 h2
        simp [envSet, h1, h2]

/-- C9: for every arguments value, `get_task "mbpp"` raises: the registry
supplies only the reflective `prompt` / `load_data_path` keyword
arguments, neither of which is in MBPP's constructor signature, while the
required `apply_chat_template` parameter is never supplied, so
construction fails with a `TypeError` and no descriptor is returned. -/
theorem get_task_mbpp_always_fails (args : Args) :
    get_task "mbpp" args =
      Except.error (PyError.typeError "missing required argument: apply_chat_template") :=
  rfl

/-- C5: the registry half-honours its contract: a name absent from the
registry fails immediately with the missing-task `KeyError`, but the
registered name "mbpp" does not return its descriptor — construction
raises a `TypeError` because the registry never supplies
`apply_chat_template`. -/
theorem get_task_registry_mismatch :
    (∀ args : Args, get_task "no_such_task" args =
      Except.error (PyError.keyError "Missing task no_such_task")) ∧
    (∀ args : Args, get_task "mbpp" args =
      Except.error (PyError.typeError "missing required argument: apply_chat_template")) :=
  ⟨fun _ => rfl, fun _ => rfl⟩

/-- C8: the per-record pass@k estimator equals `1 - C(n-c,k) / C(n,k)`
when `n - c ≥ k` and `1` when `n - c < k`; in particular pass@1 is `c/n`,
so `n=5, c=3, k=1` gives `3/5 = 0.6` and `n=5, c=3, k=5` gives `1`. -/
theorem pass_at_k_spec (n c k : Nat) (hc : c ≤ n) (hk : k ≤ n) :
    (k ≤ n - c → pass_at_k n c k = 1 - ((n - c).choose k : ℚ) / (n.choose k : ℚ)) ∧
    (n - c < k → pass_at_k n c k = 1) ∧
    (k = 1 → pass_at_k n c k = (c : ℚ) / (n : ℚ)) ∧
    pass_at_k 5 3 1 = 3 / 5 ∧
    pass_at_k 5 3 5 = 1 := by
  refine ⟨?_, ?_, ?_, ?_, ?_⟩
  · intro h
    rw [pass_at_k, if_neg (by omega)]
  · intro h
    rw [pass_at_k, if_pos h]
  · intro hk1
    subst hk1
    have hn0 : (n : ℚ) ≠ 0 := Nat.cast_ne_zero.mpr (by omega)
    by_cases h : n - c < 1
    · have hcn : c = n := by omega
      rw [pass_at_k, if_pos h, hcn, div_self hn0]
    · rw [pass_at_k, if_neg h, Nat.choose_one_right, Nat.choose_one_right,
        Nat.cast_sub hc]
      field_simp
  · rw [pass_at_k, if_neg (by norm_num),
      show Nat.choose (5 - 3) 1 = 2 from rfl, show Nat.choose 5 1 = 5 from rfl]
    norm_num
  · rw [pass_at_k, if_pos (by norm_num)]

/-- Witness for `pass_at_k_spec`: the hypotheses hold at `n=5, c=3, k=1`
and there pass@1 evaluates to `3/5`. -/
theorem pass_at_k_spec_witness :
    (3 ≤ 5 ∧ 1 ≤ 5) ∧ pass_at_k 5 3 1 = (3 : ℚ) / 5 :=
  ⟨⟨by decide, by decide⟩, (pass_at_k_spec 5 3 1 (by decide) (by decide)).2.2.2.1⟩

theorem raw_generations_eq (task : GenTask) (gen : Nat → Nat → Text) (args : Args) :
    raw_generations task gen args =
      (List.range (n_tasks_of task.dataset_len args).toNat).map
        (fun i => (List.range (per_record_count args)).map
          (fun j => gen (args.limit_start + i) j)) := by
  unfold raw_generations parallel_generations
  simp

theorem raw_generations_entry_length (task : GenTask) (gen : Nat → Nat → Text)
    (args : Args) :
    ∀ g ∈ raw_generations task gen args, g.length = per_record_count args := by
  intro g hg
  rw [raw_generations_eq] at hg
  obtain ⟨i, _, rfl⟩ := List.mem_map.mp hg
  simp

theorem raw_generations_length (task : GenTask) (gen : Nat → Nat → Text)
    (args : Args) :
    (raw_generations task gen args).length =
      (n_tasks_of task.dataset_len args).toNat := by
  rw [raw_generations_eq]
  simp

theorem n_samples_le_per_record (args : Args) (hR : 1 ≤ args.num_replicas) :
    args.n_samples ≤ per_record_count args := by
  unfold per_record_count samples_per_replica
  have hmod : (args.n_samples + args.num_replicas - 1) % args.num_replicas
      ≤ args.num_replicas - 1 :=
    Nat.le_sub_one_of_lt (Nat.mod_lt _ (by omega))
  have hdm := Nat.div_add_mod (args.n_samples + args.num_replicas - 1) args.num_replicas
  rw [Nat.eq_sub_of_add_eq hdm]
  have h1 : args.n_samples + args.num_replicas - 1 - (args.num_replicas - 1)
      ≤ args.n_samples + args.num_replicas - 1
        - (args.n_samples + args.num_replicas - 1) % args.num_replicas :=
    Nat.sub_le_sub_left hmod _
  have h2 : args.n_samples + args.num_replicas - 1 - (args.num_replicas - 1)
      = args.n_samples := by omega
  exact le_trans (le_of_eq h2.symm) h1

theorem map_range_split {α : Type} (f : Nat → α) (N p : Nat) (hp : p ≤ N) :
    ((List.range N).map f).take p ++
        (List.range (N - p)).map (fun i => f (p + i)) =
      (List.range N).map f := by
  conv_rhs => rw [← Nat.add_sub_cancel' hp, List.range_add, List.map_append, List.map_map]
  rw [← List.map_take, List.take_range, Nat.min_eq_left hp]
  rfl

theorem parallel_resume_eq (task : GenTask) (gen : Nat → Nat → Text) (args : Args)
    (p : Nat) (hp : p ≤ (n_tasks_of task.dataset_len args).toNat) :
    parallel_generations gen
        ((n_tasks_of task.dataset_len args - (p : Int)).toNat) args p
        ((raw_generations task gen args).take p) =
      raw_generations task gen args := by
  have htn : (n_tasks_of task.dataset_len args - (p : Int)).toNat
      = (n_tasks_of task.dataset_len args).toNat - p := by omega
  rw [htn]
  unfold parallel_generations
  conv_lhs => rw [raw_generations_eq]
  conv_rhs =>
    rw [raw_generations_eq,
      ← map_range_split
        (fun i => (List.range (per_record_count args)).map
          (fun j => gen (args.limit_start + i) j))
        (n_tasks_of task.dataset_len args).toNat p hp]
  congr 1
  apply List.map_congr_left
  intro i _
  rw [Nat.add_assoc]

theorem generate_from_nil (task : GenTask) (gen : Nat → Nat → Text) (args : Args) :
    generate_from task gen args [] =
      trim_result task args (raw_generations task gen args) := by
  unfold generate_from raw_generations
  norm_num

theorem take_raw_length (task : GenTask) (gen : Nat → Nat → Text) (args : Args)
    (p : Nat) (hp : p ≤ (n_tasks_of task.dataset_len args).toNat) :
    ((raw_generations task gen args).take p).length = p := by
  rw [List.length_take, raw_generations_length, Nat.min_eq_left hp]

theorem take_raw_filter (task : GenTask) (gen : Nat → Nat → Text) (args : Args)
    (p : Nat) (hR : 1 ≤ args.num_replicas) (hs : 1 ≤ args.n_samples) :
    ((raw_generations task gen args).take p).filter (fun g => !g.isEmpty) =
      (raw_generations task gen args).take p := by
  apply List.filter_eq_self.mpr
  intro g hg
  have hmem : g ∈ raw_generations task gen args := List.mem_of_mem_take hg
  have hlen : g.length = per_record_count args :=
    raw_generations_entry_length task gen args g hmem
  have hpos : 1 ≤ g.length := by
    rw [hlen]
    exact le_trans hs (n_samples_le_per_record args hR)
  cases g with
  | nil => simp at hpos
  | cons a l => rfl

theorem generate_from_take_eq (task : GenTask) (gen : Nat → Nat → Text)
    (args : Args) (p : Nat) (hp : p ≤ (n_tasks_of task.dataset_len args).toNat) :
    generate_from task gen args ((raw_generations task gen args).take p) =
      trim_result task args (raw_generations task gen args) := by
  unfold generate_from
  rw [take_raw_length task gen args p hp, parallel_resume_eq task gen args p hp]

theorem resume_eq (task : GenTask) (gen : Nat → Nat → Text) (args : Args) (p : Nat)
    (hR : 1 ≤ args.num_replicas) (hs : 1 ≤ args.n_samples)
    (hp : p ≤ (n_tasks_of task.dataset_len args).toNat) :
    generate_text task gen args (some ((raw_generations task gen args).take p)) =
      generate_text task gen args none := by
  unfold generate_text
  by_cases hcr : args.check_references
  · simp [hcr]
  · simp only [hcr, Bool.false_eq_true, if_false]
    show generate_from task gen args
        (if ((raw_generations task gen args).take p).isEmpty then []
         else ((raw_generations task gen args).take p).filter (fun g => !g.isEmpty)) =
      generate_from task gen args []
    by_cases hemp : ((raw_generations task gen args).take p).isEmpty = true
    · rw [if_pos hemp]
    · rw [if_neg hemp, take_raw_filter task gen args p hR hs,
        generate_from_take_eq task gen args p hp, generate_from_nil]

theorem trim_result_ne_nil (task : GenTask) (args : Args)
    (gens : List (List Text)) (h : gens ≠ []) :
    trim_result task args gens =
      if args.n_samples < (gens.headD []).length then
        Except.ok { generations := gens.map (fun g => g.take args.n_samples)
                    references := gen_references task args
                    warnings := [over_warning] }
      else
        Except.ok { generations := gens
                    references := gen_references task args
                    warnings := [] } := by
  cases gens with
  | nil => exact absurd rfl h
  | cons g0 gs => rfl

theorem n_tasks_pos (L : Nat) (args : Args) (h : args.limit_start < L) :
    1 ≤ (n_tasks_of L args).toNat := by
  unfold n_tasks_of
  cases args.limit with
  | none =>
      show 1 ≤ ((L : Int) - (args.limit_start : Int)).toNat
      omega
  | some l =>
      show 1 ≤ ((if l = 0 then (L : Int) - (args.limit_start : Int)
          else min (l : Int) ((L : Int) - (args.limit_start : Int))).toNat)
      by_cases hl : l = 0
      · rw [if_pos hl]
        omega
      · rw [if_neg hl]
        omega

theorem raw_generations_ne_nil (task : GenTask) (gen : Nat → Nat → Text)
    (args : Args) (h : args.limit_start < task.dataset_len) :
    raw_generations task gen args ≠ [] := by
  intro h0
  have hl := raw_generations_length task gen args
  rw [h0] at hl
  have := n_tasks_pos task.dataset_len args h
  simp at hl
  omega

theorem generate_text_ok_of_lt (task : GenTask) (gen : Nat → Nat → Text)
    (args : Args) (ic : Option (List (List Text)))
    (h : args.limit_start < task.dataset_len) :
    ∃ r, generate_text task gen args ic = Except.ok r ∧
      r.references = gen_references task args := by
  unfold generate_text
  split
  · exact ⟨_, rfl, rfl⟩
  · generalize ((match ic with
      | none => []
      | some gens =>
          if gens.isEmpty then [] else gens.filter (fun g => !g.isEmpty)) :
        List (List Text)) = curr
    cases curr with
    | nil =>
        rw [generate_from_nil]
        rw [trim_result_ne_nil task args _ (raw_generations_ne_nil task gen args h)]
        split
        · exact ⟨_, rfl, rfl⟩
        · exact ⟨_, rfl, rfl⟩
    | cons c cs =>
        unfold generate_from
        rw [trim_result_ne_nil task args _ (by simp [parallel_generations])]
        split
        · exact ⟨_, rfl, rfl⟩
        · exact ⟨_, rfl, rfl⟩

theorem generate_text_references_of_ok (task : GenTask) (gen : Nat → Nat → Text)
    (args : Args) (ic : Option (List (List Text))) (r : GenResult)
    (h : generate_text task gen args ic = Except.ok r) :
    r.references = gen_references task args := by
  unfold generate_text generate_from trim_result at h
  split at h
  · cases h
    rfl
  · split at h
    · cases h
    · split at h
      · cases h
        rfl
      · cases h
        rfl

theorem generate_text_none_eq (task : GenTask) (gen : Nat → Nat → Text)
    (args : Args) (hcr : args.check_references = false) :
    generate_text task gen args none =
      trim_result task args (raw_generations task gen args) := by
  unfold generate_text
  rw [hcr]
  show generate_from task gen args [] = _
  exact generate_from_nil task gen args

theorem raw_headD_length (task : GenTask) (gen : Nat → Nat → Text) (args : Args)
    (h : raw_generations task gen args ≠ []) :
    ((raw_generations task gen args).headD []).length = per_record_count args := by
  apply raw_generations_entry_length
  cases hr : raw_generations task gen args with
  | nil => exact absurd hr h
  | cons a l => simp

/-- C4: resuming from a checkpoint that is a prefix of the uninterrupted
raw candidate array reconstructs the identical final result under the
same sampling configuration; the filter keeps every checkpoint entry, so
the remaining work is `n_tasks` minus the checkpoint length and
generation continues from the next uncompleted record. -/
theorem generate_text_resume_equiv (task : GenTask) (gen : Nat → Nat → Text)
    (args : Args) (p : Nat) (hR : 1 ≤ args.num_replicas)
    (hs : 1 ≤ args.n_samples)
    (hp : p ≤ (n_tasks_of task.dataset_len args).toNat) :
    generate_text task gen args (some ((raw_generations task gen args).take p)) =
      generate_text task gen args none ∧
    ((raw_generations task gen args).take p).length = p ∧
    ((raw_generations task gen args).take p).filter (fun g => !g.isEmpty) =
      (raw_generations task gen args).take p :=
  ⟨resume_eq task gen args p hR hs hp,
   take_raw_length task gen args p hp,
   take_raw_filter task gen args p hR hs⟩

/-- Witness for `generate_text_resume_equiv`: a three-record run with two
replicas and three samples, resumed after two records, equals the
uninterrupted run. -/
theorem generate_text_resume_equiv_witness :
    (1 ≤ demoArgs.num_replicas ∧ 1 ≤ demoArgs.n_samples ∧
      2 ≤ (n_tasks_of demoTask.dataset_len demoArgs).toNat) ∧
    generate_text demoTask demoGen demoArgs
        (some ((raw_generations demoTask demoGen demoArgs).take 2)) =
      generate_text demoTask demoGen demoArgs none :=
  ⟨⟨by decide, by decide, by decide⟩,
   (generate_text_resume_equiv demoTask demoGen demoArgs 2
      (by decide) (by decide) (by decide)).1⟩

/-- C2: in a completed generation run over at least one record (fresh, or
resumed from a prefix of the raw candidate array; a zero-record run
raises `IndexError` at the trim and never completes), every returned
record has exactly `n_samples` candidates: the sharded generation never
produces fewer than `n_samples` per record, the excess is trimmed from
the end (each kept list is an initial segment of the raw list), and
over-production is signalled by the non-fatal warning. -/
theorem generate_text_nsamples_invariant (task : GenTask) (gen : Nat → Nat → Text)
    (args : Args) (ic : Option (List (List Text))) (p : Nat)
    (hL : args.limit_start < task.dataset_len)
    (hR : 1 ≤ args.num_replicas) (hs : 1 ≤ args.n_samples)
    (hcr : args.check_references = false)
    (hic : ic = none ∨ (p ≤ (n_tasks_of task.dataset_len args).toNat ∧
        ic = some ((raw_generations task gen args).take p))) :
    ∃ r, generate_text task gen args ic = Except.ok r ∧
      r.generations =
        (raw_generations task gen args).map (fun g => g.take args.n_samples) ∧
      (∀ g ∈ r.generations, g.length = args.n_samples) ∧
      (∀ g ∈ raw_generations task gen args, args.n_samples ≤ g.length) ∧
      (args.n_samples < per_record_count args →
        raw_generations task gen args ≠ [] → r.warnings = [over_warning]) ∧
      (per_record_count args ≤ args.n_samples → r.warnings = []) := by
  have hreduce : generate_text task gen args ic = generate_text task gen args none := by
    rcases hic with rfl | ⟨hp, rfl⟩
    · rfl
    · exact resume_eq task gen args p hR hs hp
  rw [hreduce, generate_text_none_eq task gen args hcr]
  have hm : args.n_samples ≤ per_record_count args := n_samples_le_per_record args hR
  have hraw_le : ∀ g ∈ raw_generations task gen args, args.n_samples ≤ g.length := by
    intro g hg
    rw [raw_generations_entry_length task gen args g hg]
    exact hm
  rw [trim_result_ne_nil task args _ (raw_generations_ne_nil task gen args hL)]
  by_cases htrim :
      args.n_samples < ((raw_generations task gen args).headD []).length
  · rw [if_pos htrim]
    refine ⟨_, rfl, rfl, ?_, hraw_le, fun _ _ => rfl, ?_⟩
    · intro g hg
      obtain ⟨g', hg', rfl⟩ := List.mem_map.mp hg
      rw [List.length_take]
      exact Nat.min_eq_left (hraw_le g' hg')
    · intro hle
      exfalso
      have hne : raw_generations task gen args ≠ [] := by
        intro hnil
        rw [hnil] at htrim
        simp at htrim
      rw [raw_headD_length task gen args hne] at htrim
      omega
  · rw [if_neg htrim]
    refine ⟨_, rfl, ?_, ?_, hraw_le, ?_, fun _ => rfl⟩
    · conv_lhs => rw [← List.map_id (raw_generations task gen args)]
      apply List.map_congr_left
      intro g hg
      have hne : raw_generations task gen args ≠ [] := by
        intro h0
        rw [h0] at hg
        cases hg
      have hhd := raw_headD_length task gen args hne
      have hglen := raw_generations_entry_length task gen args g hg
      have : g.take args.n_samples = g := List.take_of_length_le (by omega)
      exact this.symm
    · intro g hg
      have hne : raw_generations task gen args ≠ [] := by
        intro h0
        rw [h0] at hg
        cases hg
      have hhd := raw_headD_length task gen args hne
      have hglen := raw_generations_entry_length task gen args g hg
      omega
    · intro hlt hne
      exfalso
      rw [raw_headD_length task gen args hne] at htrim
      omega

/-- Witness for `generate_text_nsamples_invariant`: a fresh three-record
run with two replicas and three samples satisfies every hypothesis and
the invariant. -/
theorem generate_text_nsamples_invariant_witness :
    (demoArgs.limit_start < demoTask.dataset_len ∧
      1 ≤ demoArgs.num_replicas ∧ 1 ≤ demoArgs.n_samples ∧
      demoArgs.check_references = false ∧
      ((none : Option (List (List Text))) = none ∨
        (0 ≤ (n_tasks_of demoTask.dataset_len demoArgs).toNat ∧
          (none : Option (List (List Text))) =
            some ((raw_generations demoTask demoGen demoArgs).take 0)))) ∧
    ∃ r, generate_text demoTask demoGen demoArgs none = Except.ok r ∧
      r.generations =
        (raw_generations demoTask demoGen demoArgs).map
          (fun g => g.take demoArgs.n_samples) ∧
      (∀ g ∈ r.generations, g.length = demoArgs.n_samples) ∧
      (∀ g ∈ raw_generations demoTask demoGen demoArgs,
        demoArgs.n_samples ≤ g.length) ∧
      (demoArgs.n_samples < per_record_count demoArgs →
        raw_generations demoTask demoGen demoArgs ≠ [] →
        r.warnings = [over_warning]) ∧
      (per_record_count demoArgs ≤ demoArgs.n_samples → r.warnings = []) :=
  ⟨⟨by decide, by decide, by decide, rfl, Or.inl rfl⟩,
   generate_text_nsamples_invariant demoTask demoGen demoArgs none 0
     (by decide) (by decide) (by decide) rfl (Or.inl rfl)⟩

/-- C3 counterexample: an invalid checkpoint — three record entries
supplied for a one-record run — is accepted without any error, and the
returned generations (three records) silently misalign with the returned
references (one record). -/
theorem checkpoint_not_validated_cex :
    (generate_text c3Task demoGen c3Args (some c3Ckpt)).toOption.map
        (fun r => (r.generations.length, r.references.length)) = some (3, 1) := by
  rfl

/-- C3 amended: a supplied checkpoint is not validated at all: empty
record entries are silently filtered out, the remaining entry count is
subtracted from the task count, and every checkpoint with at least one
non-empty entry — corrupt or shape-mismatched included — is accepted
without a fatal error; the reference list is computed from the task and
arguments alone, independent of the checkpoint, so a mismatched
checkpoint silently misaligns candidates with records.  (A checkpoint
with no non-empty entries is treated as absent; a zero-record run then
raises the unrelated trim `IndexError`, exactly as a fresh one does.) -/
theorem checkpoint_accepted_unvalidated (task : GenTask) (gen : Nat → Nat → Text)
    (args : Args) (ckpt : List (List Text)) (h : ∃ g ∈ ckpt, g ≠ []) :
    ∃ r, generate_text task gen args (some ckpt) = Except.ok r ∧
      r.references = gen_references task args := by
  unfold generate_text
  split
  · exact ⟨_, rfl, rfl⟩
  · obtain ⟨g, hg, hgne⟩ := h
    have hck : ckpt.isEmpty = false := by
      cases ckpt with
      | nil => cases hg
      | cons a l => rfl
    show ∃ r, generate_from task gen args
        (if ckpt.isEmpty then [] else ckpt.filter (fun x => !x.isEmpty)) =
          Except.ok r ∧ r.references = gen_references task args
    rw [hck]
    simp only [Bool.false_eq_true, if_false]
    have hmem : g ∈ ckpt.filter (fun x => !x.isEmpty) := by
      rw [List.mem_filter]
      refine ⟨hg, ?_⟩
      cases g with
      | nil => exact absurd rfl hgne
      | cons a l => rfl
    cases hf : ckpt.filter (fun x => !x.isEmpty) with
    | nil =>
        rw [hf] at hmem
        cases hmem
    | cons c cs =>
        unfold generate_from
        rw [trim_result_ne_nil task args _ (by simp [parallel_generations])]
        split
        · exact ⟨_, rfl, rfl⟩
        · exact ⟨_, rfl, rfl⟩

/-- Witness for `checkpoint_accepted_unvalidated`: the three-entry
checkpoint of the one-record run has a non-empty entry and is accepted
without error, its references computed independently. -/
theorem checkpoint_accepted_unvalidated_witness :
    (∃ g ∈ c3Ckpt, g ≠ []) ∧
    ∃ r, generate_text c3Task demoGen c3Args (some c3Ckpt) = Except.ok r ∧
      r.references = gen_references c3Task c3Args :=
  ⟨by decide,
   checkpoint_accepted_unvalidated c3Task demoGen c3Args c3Ckpt (by decide)⟩

/-- C7 counterexample: with `limit = 0` — a set limit — the claimed task
count `min(limit, len - limit_start)` is `0`, but the run returns three
references: Python truthiness treats the zero limit as unset. -/
theorem n_tasks_limit_zero_cex :
    (generate_text demoTask demoGen c7Args none).toOption.map
        (fun r => r.references.length) = some 3 ∧
    spec_n_tasks c7Args.limit demoTask.dataset_len c7Args.limit_start = 0 ∧
    (generate_text demoTask demoGen c7Args none).toOption.map
        (fun r => r.references.length) ≠
      some (spec_n_tasks c7Args.limit demoTask.dataset_len c7Args.limit_start) :=
  ⟨rfl, rfl, by decide⟩

/-- C7 amended: with `limit_start < len(dataset)` (at
`limit_start ≥ len(dataset)` a fresh run raises `IndexError` at the trim
and returns nothing), the run returns exactly `n_tasks` references —
`min(limit, len - limit_start)` when the limit is set and nonzero,
`len - limit_start` otherwise (a zero limit is falsy and treated as
unset) — the i-th extracted from dataset record `limit_start + i`; for
MBPP the reference is the record's `test_list` joined by newlines. -/
theorem generate_text_references_spec (task : GenTask) (gen : Nat → Nat → Text)
    (args : Args) (ic : Option (List (List Text)))
    (h : args.limit_start < task.dataset_len) :
    ∃ r, generate_text task gen args ic = Except.ok r ∧
      r.references.length =
        (match args.limit with
         | some l => if l = 0 then task.dataset_len - args.limit_start
             else min l (task.dataset_len - args.limit_start)
         | none => task.dataset_len - args.limit_start) ∧
      (∀ i, i < r.references.length →
        r.references.get? i =
          some (task.get_reference (task.dataset (args.limit_start + i)))) ∧
      (∀ doc, MBPP_get_reference doc = List.intercalate "\n".toList doc.test_list) := by
  obtain ⟨r, hr, hrefs⟩ := generate_text_ok_of_lt task gen args ic h
  refine ⟨r, hr, ?_, ?_, fun _ => rfl⟩
  · rw [hrefs]
    unfold gen_references n_tasks_of
    rw [List.length_map, List.length_range]
    cases args.limit with
    | none =>
        show ((task.dataset_len : Int) - (args.limit_start : Int)).toNat
            = task.dataset_len - args.limit_start
        omega
    | some l =>
        show ((if l = 0 then (task.dataset_len : Int) - (args.limit_start : Int)
            else min (l : Int)
              ((task.dataset_len : Int) - (args.limit_start : Int))).toNat)
            = (if l = 0 then task.dataset_len - args.limit_start
               else min l (task.dataset_len - args.limit_start))
        by_cases hl0 : l = 0
        · rw [if_pos hl0, if_pos hl0]
          omega
        · rw [if_neg hl0, if_neg hl0]
          omega
  · intro i hi
    rw [hrefs] at hi ⊢
    unfold gen_references at hi ⊢
    rw [List.length_map, List.length_range] at hi
    rw [List.get?_map, List.get?_range hi]
    rfl

/-- Witness for `generate_text_references_spec`: the hypothesis holds for
the three-record demo run, which returns three aligned references. -/
theorem generate_text_references_spec_witness :
    demoArgs.limit_start < demoTask.dataset_len ∧
    (∃ r, generate_text demoTask demoGen demoArgs none = Except.ok r ∧
      r.references.length =
        (match demoArgs.limit with
         | some l => if l = 0 then demoTask.dataset_len - demoArgs.limit_start
             else min l (demoTask.dataset_len - demoArgs.limit_start)
         | none => demoTask.dataset_len - demoArgs.limit_start) ∧
      (∀ i, i < r.references.length →
        r.references.get? i =
          some (demoTask.get_reference
            (demoTask.dataset (demoArgs.limit_start + i)))) ∧
      (∀ doc, MBPP_get_reference doc = List.intercalate "\n".toList doc.test_list)) :=
  ⟨by decide, generate_text_references_spec demoTask demoGen demoArgs none (by decide)⟩

end SimpleCodeEval
